import Mathlib

/-!
Shallow embedding of src/src/wsio.c (the WebSocket transport adapter of
azure-uamqp-c) and verification of its specification claims.

Modelling conventions:
- C strings that may be NULL are embedded as Option String; buffers are
  List Nat (byte lists).
- Allocation (amqpalloc_malloc) and engine primitives (lws_create_context,
  lws_client_connect, lws_write, lws_callback_on_writable) are
  nondeterministic at the C level; their outcomes are passed in explicitly
  as Bool / Int oracle arguments, one per call site, in call order.
- The generic list container (list_create / list_add / list_get_head_item /
  list_item_get_value / list_remove) is embedded as a Lean List; per the
  spec it is an opaque utility, so list_item_get_value never yields NULL
  and list_remove of a present head succeeds.  list_add may fail, which is
  an explicit oracle argument.
- Function pointers (callbacks) are embedded as presence flags plus the
  opaque context (a Nat); every callback invocation the code performs is
  emitted into an observable event list, in program order, together with
  the observable engine calls (lws_write, lws_callback_on_writable,
  lws_context_destroy).
- Nonzero C results produced by result = __LINE__ are embedded as the
  concrete line numbers of the source file.
-/

namespace WSIO

/-- IO_STATE from wsio.c (IO_STATE_CLOSING is declared in the source but
never assigned). -/
inductive IO_STATE where
  | IO_STATE_NOT_OPEN
  | IO_STATE_OPENING
  | IO_STATE_OPEN
  | IO_STATE_CLOSING
  | IO_STATE_ERROR
deriving DecidableEq, Repr

/-- IO_OPEN_RESULT values used by wsio.c. -/
inductive IO_OPEN_RESULT where
  | IO_OPEN_OK
  | IO_OPEN_ERROR
  | IO_OPEN_CANCELLED
deriving DecidableEq, Repr

/-- IO_SEND_RESULT values used by wsio.c. -/
inductive IO_SEND_RESULT where
  | IO_SEND_OK
  | IO_SEND_ERROR
  | IO_SEND_CANCELLED
deriving DecidableEq, Repr

/-- PENDING_SOCKET_IO from wsio.c: an owned byte buffer, its size field,
the completion callback (embedded as a presence flag, matching a possibly
NULL on_send_complete) with its callback_context, and the
is_partially_sent flag.  The pending_io_list back-pointer of the C struct
is the containing queue and needs no separate field. -/
structure PENDING_SOCKET_IO where
  bytes : List Nat
  size : Nat
  has_on_send_complete : Bool
  callback_context : Nat
  is_partially_sent : Bool
deriving DecidableEq, Repr

/-- WSIO_INSTANCE from wsio.c.  Engine handles (ws_context, wsi), the
logger and the protocols table do not influence the adapter-level control
flow modelled here and are omitted; callbacks are presence flags plus the
open_callback_context. -/
structure WSIO_INSTANCE where
  has_on_io_open_complete : Bool
  has_on_io_error : Bool
  open_callback_context : Nat
  io_state : IO_STATE
  pending_io_list : List PENDING_SOCKET_IO
  port : Int
  host : String
  relative_path : String
  protocol_name : String
  trusted_ca : Option String
  use_ssl : Bool
deriving DecidableEq, Repr

/-- Observable events: every caller callback invocation and every
observable engine call, in program order. -/
inductive Event where
  | on_io_open_complete (open_result : IO_OPEN_RESULT)
  | on_send_complete (callback_context : Nat) (send_result : IO_SEND_RESULT)
  | on_io_error
  | on_bytes_received (callback_context : Nat) (payload : List Nat)
  | on_io_close_complete (callback_context : Nat)
  | lws_write_call (bytes : List Nat)
  | lws_callback_on_writable_call
  | lws_context_destroy_call
deriving DecidableEq, Repr

/-- indicate_error from wsio.c: call on_io_error when registered. -/
def indicate_error (w : WSIO_INSTANCE) : List Event :=
  if w.has_on_io_error then [Event.on_io_error] else []

/-- indicate_open_complete from wsio.c: call on_io_open_complete when
registered (SRS_WSIO_01_040: optional callback). -/
def indicate_open_complete (w : WSIO_INSTANCE) (open_result : IO_OPEN_RESULT) : List Event :=
  if w.has_on_io_open_complete then [Event.on_io_open_complete open_result] else []

/-- add_pending_io from wsio.c.  The two amqpalloc_malloc calls and the
list_add call may fail; on success a fresh PENDING_SOCKET_IO (size bytes
copied from buffer, is_partially_sent = false) is appended at the tail. -/
def add_pending_io (w : WSIO_INSTANCE) (buffer : List Nat) (size : Nat)
    (has_on_send_complete : Bool) (callback_context : Nat)
    (malloc_pending_ok malloc_bytes_ok list_add_ok : Bool) :
    Int × WSIO_INSTANCE :=
  if malloc_pending_ok = false then (82, w)
  else if malloc_bytes_ok = false then (91, w)
  else if list_add_ok = false then (108, w)
  else (0, { w with pending_io_list := w.pending_io_list ++
      [{ bytes := buffer.take size, size := size,
         has_on_send_complete := has_on_send_complete,
         callback_context := callback_context,
         is_partially_sent := false }] })

/-- The reason argument of on_ws_callback, restricted to the four reasons
wsio.c handles that affect adapter state (the OPENSSL trust-anchor reason
touches only the TLS store and no adapter state).  The WRITEABLE case
carries the outcomes of the framing-buffer allocation and of lws_write for
this dispatch round; RECEIVE carries the payload. -/
inductive lws_callback_reason where
  | LWS_CALLBACK_CLIENT_ESTABLISHED
  | LWS_CALLBACK_CLIENT_CONNECTION_ERROR
  | LWS_CALLBACK_CLIENT_WRITEABLE (malloc_ws_buffer_ok : Bool) (lws_write_result : Int)
  | LWS_CALLBACK_CLIENT_RECEIVE (payload : List Nat)
deriving DecidableEq, Repr

/-- The LWS_CALLBACK_CLIENT_WRITEABLE branch of on_ws_callback (wsio.c
lines 191-290).  Pops the queue head; on framing-buffer allocation failure
or negative lws_write result fires SEND_ERROR (and, when is_partially_sent,
moves to IO_STATE_ERROR and raises on_io_error) and removes the write; on a
short write memmoves the remaining bytes to the front of the same buffer
(the size field and is_partially_sent are left unchanged, exactly as the
source does); on a full write fires SEND_OK and removes the write.  After
handling, re-requests a writable notification when the queue is
non-empty. -/
def handle_writeable (w : WSIO_INSTANCE) (malloc_ws_buffer_ok : Bool)
    (lws_write_result : Int) : WSIO_INSTANCE × List Event :=
  match w.pending_io_list with
  | [] => (w, [])
  | p :: rest =>
    let send_error_events : List Event :=
      (if p.has_on_send_complete then
        [Event.on_send_complete p.callback_context IO_SEND_RESULT.IO_SEND_ERROR] else []) ++
      (if p.is_partially_sent then indicate_error w else [])
    let state_after_send_error : IO_STATE :=
      if p.is_partially_sent then IO_STATE.IO_STATE_ERROR else w.io_state
    let handled : WSIO_INSTANCE × List Event :=
      if malloc_ws_buffer_ok = false then
        ({ w with io_state := state_after_send_error, pending_io_list := rest },
         send_error_events)
      else if lws_write_result < 0 then
        ({ w with io_state := state_after_send_error, pending_io_list := rest },
         Event.lws_write_call p.bytes :: send_error_events)
      else if lws_write_result.toNat < p.size then
        ({ w with pending_io_list :=
            { p with bytes := p.bytes.drop lws_write_result.toNat ++
                p.bytes.drop (p.size - lws_write_result.toNat) } :: rest },
         [Event.lws_write_call p.bytes])
      else
        ({ w with pending_io_list := rest },
         Event.lws_write_call p.bytes ::
           (if p.has_on_send_complete then
             [Event.on_send_complete p.callback_context IO_SEND_RESULT.IO_SEND_OK] else []))
    (handled.1,
     handled.2 ++
       (if handled.1.pending_io_list.isEmpty then []
        else [Event.lws_callback_on_writable_call]))

/-- on_ws_callback from wsio.c: the single event dispatcher.  Returns the
updated instance and the observable events of this dispatch. -/
def on_ws_callback (w : WSIO_INSTANCE) :
    lws_callback_reason → WSIO_INSTANCE × List Event
  | lws_callback_reason.LWS_CALLBACK_CLIENT_ESTABLISHED =>
    match w.io_state with
    | IO_STATE.IO_STATE_OPENING =>
      ({ w with io_state := IO_STATE.IO_STATE_OPEN },
       indicate_open_complete w IO_OPEN_RESULT.IO_OPEN_OK)
    | _ => (w, indicate_error w)
  | lws_callback_reason.LWS_CALLBACK_CLIENT_CONNECTION_ERROR =>
    match w.io_state with
    | IO_STATE.IO_STATE_OPENING =>
      ({ w with io_state := IO_STATE.IO_STATE_NOT_OPEN },
       indicate_open_complete w IO_OPEN_RESULT.IO_OPEN_ERROR ++
         [Event.lws_context_destroy_call])
    | _ => (w, indicate_error w)
  | lws_callback_reason.LWS_CALLBACK_CLIENT_WRITEABLE malloc_ws_buffer_ok lws_write_result =>
    handle_writeable w malloc_ws_buffer_ok lws_write_result
  | lws_callback_reason.LWS_CALLBACK_CLIENT_RECEIVE payload =>
    (w, [Event.on_bytes_received w.open_callback_context payload])

/-- wsio_open from wsio.c.  Registers the callbacks and context before any
engine call; lws_create_context and lws_client_connect outcomes are oracle
arguments.  Returns (result, updated handle, events). -/
def wsio_open (ws_io : Option WSIO_INSTANCE)
    (has_on_io_open_complete has_on_io_error : Bool) (callback_context : Nat)
    (lws_create_context_ok lws_client_connect_ok : Bool) :
    Int × Option WSIO_INSTANCE × List Event :=
  match ws_io with
  | none => (529, none, [])
  | some w =>
    if w.io_state ≠ IO_STATE.IO_STATE_NOT_OPEN then (538, some w, [])
    else
      let w1 := { w with has_on_io_open_complete := has_on_io_open_complete,
                         has_on_io_error := has_on_io_error,
                         open_callback_context := callback_context }
      if lws_create_context_ok = false then (584, some w1, [])
      else if lws_client_connect_ok = false then
        (606, some { w1 with io_state := IO_STATE.IO_STATE_NOT_OPEN },
         [Event.lws_context_destroy_call])
      else (0, some { w1 with io_state := IO_STATE.IO_STATE_OPENING }, [])

/-- The queue-drain loop of wsio_close (wsio.c lines 653-676): for each
pending write, in queue order, fire on_send_complete with
IO_SEND_CANCELLED when the callback is registered, then free and remove
it. -/
def cancel_all_pending : List PENDING_SOCKET_IO → List Event
  | [] => []
  | p :: rest =>
    (if p.has_on_send_complete then
      [Event.on_send_complete p.callback_context IO_SEND_RESULT.IO_SEND_CANCELLED] else []) ++
    cancel_all_pending rest

/-- wsio_close from wsio.c.  Fails only on a NULL handle or NOT_OPEN
state; during OPENING it delivers open-complete(CANCELLED) and skips the
queue drain, otherwise it drains the queue with CANCELLED; it then
destroys the engine context, moves to NOT_OPEN and, when given, calls
on_io_close_complete.  The close callback is embedded as a presence flag
plus its context. -/
def wsio_close (ws_io : Option WSIO_INSTANCE)
    (has_on_io_close_complete : Bool) (callback_context : Nat) :
    Int × Option WSIO_INSTANCE × List Event :=
  match ws_io with
  | none => (627, none, [])
  | some w =>
    if w.io_state = IO_STATE.IO_STATE_NOT_OPEN then (637, some w, [])
    else
      let branch_events : List Event :=
        if w.io_state = IO_STATE.IO_STATE_OPENING then
          indicate_open_complete w IO_OPEN_RESULT.IO_OPEN_CANCELLED
        else cancel_all_pending w.pending_io_list
      let remaining : List PENDING_SOCKET_IO :=
        if w.io_state = IO_STATE.IO_STATE_OPENING then w.pending_io_list else []
      (0,
       some { w with io_state := IO_STATE.IO_STATE_NOT_OPEN,
                     pending_io_list := remaining },
       branch_events ++ [Event.lws_context_destroy_call] ++
         (if has_on_io_close_complete then
           [Event.on_io_close_complete callback_context] else []))

/-- wsio_send from wsio.c.  Validates handle/buffer/size, requires
IO_STATE_OPEN, queues via add_pending_io, then requests a writable
notification; a negative lws_callback_on_writable result makes wsio_send
return a nonzero value while the write stays enqueued (SRS_WSIO_01_106).
Returns (result, updated handle); wsio_send itself fires no callback. -/
def wsio_send (ws_io : Option WSIO_INSTANCE) (buffer : Option (List Nat)) (size : Nat)
    (has_on_send_complete : Bool) (callback_context : Nat)
    (malloc_pending_ok malloc_bytes_ok list_add_ok : Bool)
    (lws_callback_on_writable_result : Int) :
    Int × Option WSIO_INSTANCE :=
  match ws_io, buffer with
  | none, _ => (711, none)
  | some w, none => (711, some w)
  | some w, some buf =>
    if size = 0 then (711, some w)
    else if w.io_state ≠ IO_STATE.IO_STATE_OPEN then (720, some w)
    else
      let queued := add_pending_io w buf size has_on_send_complete callback_context
        malloc_pending_ok malloc_bytes_ok list_add_ok
      if queued.1 ≠ 0 then (736, some queued.2)
      else if lws_callback_on_writable_result < 0 then (744, some queued.2)
      else (0, some queued.2)

/-- WSIO_CONFIG from wsio.h as consumed by wsio_create: host,
protocol_name and relative_path may be NULL (Option), trusted_ca is
optional by design. -/
structure WSIO_CONFIG where
  host : Option String
  port : Int
  protocol_name : Option String
  relative_path : Option String
  use_ssl : Bool
  trusted_ca : Option String
deriving DecidableEq, Repr

/-- The allocations wsio_create performs, in program order: the instance
struct, the pending IO list (list_create), and the copies of host,
relative_path, protocol_name, the protocols table and trusted_ca. -/
inductive AllocTag where
  | instance_mem
  | pending_io_list_mem
  | host_mem
  | relative_path_mem
  | protocol_name_mem
  | protocols_mem
  | trusted_ca_mem
deriving DecidableEq, Repr, Fintype

/-- Allocation log entries: a successful allocation, a failed allocation
attempt, and a free (list_destroy counts as the free of the list). -/
inductive AllocEvent where
  | alloc (tag : AllocTag)
  | alloc_fail (tag : AllocTag)
  | free (tag : AllocTag)
deriving DecidableEq, Repr

/-- wsio_create from wsio.c.  Validates that the config and its host,
protocol_name and relative_path are non-NULL, then performs up to seven
allocations in program order (each with an explicit success oracle); every
failure branch frees exactly what was allocated so far, in the source's
order, and returns NULL.  Returns the instance (or none) and the
allocation log. -/
def wsio_create (io_create_parameters : Option WSIO_CONFIG)
    (a_instance a_list a_host a_relative_path a_protocol_name a_protocols a_trusted_ca : Bool) :
    Option WSIO_INSTANCE × List AllocEvent :=
  match io_create_parameters with
  | none => (none, [])
  | some cfg =>
    match cfg.host, cfg.protocol_name, cfg.relative_path with
    | none, _, _ => (none, [])
    | some _, none, _ => (none, [])
    | some _, some _, none => (none, [])
    | some host, some protocol_name, some relative_path =>
      if a_instance = false then
        (none, [AllocEvent.alloc_fail AllocTag.instance_mem])
      else if a_list = false then
        (none, [AllocEvent.alloc AllocTag.instance_mem,
                AllocEvent.alloc_fail AllocTag.pending_io_list_mem,
                AllocEvent.free AllocTag.instance_mem])
      else if a_host = false then
        (none, [AllocEvent.alloc AllocTag.instance_mem,
                AllocEvent.alloc AllocTag.pending_io_list_mem,
                AllocEvent.alloc_fail AllocTag.host_mem,
                AllocEvent.free AllocTag.pending_io_list_mem,
                AllocEvent.free AllocTag.instance_mem])
      else if a_relative_path = false then
        (none, [AllocEvent.alloc AllocTag.instance_mem,
                AllocEvent.alloc AllocTag.pending_io_list_mem,
                AllocEvent.alloc AllocTag.host_mem,
                AllocEvent.alloc_fail AllocTag.relative_path_mem,
                AllocEvent.free AllocTag.host_mem,
                AllocEvent.free AllocTag.pending_io_list_mem,
                AllocEvent.free AllocTag.instance_mem])
      else if a_protocol_name = false then
        (none, [AllocEvent.alloc AllocTag.instance_mem,
                AllocEvent.alloc AllocTag.pending_io_list_mem,
                AllocEvent.alloc AllocTag.host_mem,
                AllocEvent.alloc AllocTag.relative_path_mem,
                AllocEvent.alloc_fail AllocTag.protocol_name_mem,
                AllocEvent.free AllocTag.relative_path_mem,
                AllocEvent.free AllocTag.host_mem,
                AllocEvent.free AllocTag.pending_io_list_mem,
                AllocEvent.free AllocTag.instance_mem])
      else if a_protocols = false then
        (none, [AllocEvent.alloc AllocTag.instance_mem,
                AllocEvent.alloc AllocTag.pending_io_list_mem,
                AllocEvent.alloc AllocTag.host_mem,
                AllocEvent.alloc AllocTag.relative_path_mem,
                AllocEvent.alloc AllocTag.protocol_name_mem,
                AllocEvent.alloc_fail AllocTag.protocols_mem,
                AllocEvent.free AllocTag.relative_path_mem,
                AllocEvent.free AllocTag.protocol_name_mem,
                AllocEvent.free AllocTag.host_mem,
                AllocEvent.free AllocTag.pending_io_list_mem,
                AllocEvent.free AllocTag.instance_mem])
      else
        let base_log : List AllocEvent :=
          [AllocEvent.alloc AllocTag.instance_mem,
           AllocEvent.alloc AllocTag.pending_io_list_mem,
           AllocEvent.alloc AllocTag.host_mem,
           AllocEvent.alloc AllocTag.relative_path_mem,
           AllocEvent.alloc AllocTag.protocol_name_mem,
           AllocEvent.alloc AllocTag.protocols_mem]
        match cfg.trusted_ca with
        | none =>
          (some { has_on_io_open_complete := false,
                  has_on_io_error := false,
                  open_callback_context := 0,
                  io_state := IO_STATE.IO_STATE_NOT_OPEN,
                  pending_io_list := [],
                  port := cfg.port,
                  host := host,
                  relative_path := relative_path,
                  protocol_name := protocol_name,
                  trusted_ca := none,
                  use_ssl := cfg.use_ssl },
           base_log)
        | some ca =>
          if a_trusted_ca = false then
            (none, base_log ++
              [AllocEvent.alloc_fail AllocTag.trusted_ca_mem,
               AllocEvent.free AllocTag.protocols_mem,
               AllocEvent.free AllocTag.protocol_name_mem,
               AllocEvent.free AllocTag.relative_path_mem,
               AllocEvent.free AllocTag.host_mem,
               AllocEvent.free AllocTag.pending_io_list_mem,
               AllocEvent.free AllocTag.instance_mem])
          else
            (some { has_on_io_open_complete := false,
                    has_on_io_error := false,
                    open_callback_context := 0,
                    io_state := IO_STATE.IO_STATE_NOT_OPEN,
                    pending_io_list := [],
                    port := cfg.port,
                    host := host,
                    relative_path := relative_path,
                    protocol_name := protocol_name,
                    trusted_ca := some ca,
                    use_ssl := cfg.use_ssl },
             base_log ++ [AllocEvent.alloc AllocTag.trusted_ca_mem])

/-- An action on a live instance: one public API call (with the outcomes
of its engine/allocator calls as oracle arguments) or one engine event
dispatched through on_ws_callback. -/
inductive Action where
  | act_open (has_on_io_open_complete has_on_io_error : Bool) (callback_context : Nat)
      (lws_create_context_ok lws_client_connect_ok : Bool)
  | act_close (has_on_io_close_complete : Bool) (callback_context : Nat)
  | act_send (data : List Nat) (has_on_send_complete : Bool) (callback_context : Nat)
      (malloc_pending_ok malloc_bytes_ok list_add_ok : Bool)
      (lws_callback_on_writable_result : Int)
  | act_event (reason : lws_callback_reason)
deriving DecidableEq, Repr

/-- One step of the system: apply an action to a live instance, yielding
the new instance and the observable events. -/
def step (w : WSIO_INSTANCE) : Action → WSIO_INSTANCE × List Event
  | Action.act_open hoc hie ctx create_ok connect_ok =>
    let r := wsio_open (some w) hoc hie ctx create_ok connect_ok
    (r.2.1.getD w, r.2.2)
  | Action.act_close hcc ctx =>
    let r := wsio_close (some w) hcc ctx
    (r.2.1.getD w, r.2.2)
  | Action.act_send data hsc ctx m1 m2 la wr =>
    let r := wsio_send (some w) (some data) data.length hsc ctx m1 m2 la wr
    (r.2.getD w, [])
  | Action.act_event reason => on_ws_callback w reason

/-- Run a sequence of actions, threading the instance state and
concatenating the observable events in order. -/
def run (w : WSIO_INSTANCE) : List Action → WSIO_INSTANCE × List Event
  | [] => (w, [])
  | a :: rest =>
    let s := step w a
    let r := run s.1 rest
    (r.1, s.2 ++ r.2)

/-- The callback contexts of the send completions in an event list, in
order. -/
def completed_send_contexts (l : List Event) : List Nat :=
  l.filterMap (fun e =>
    match e with
    | Event.on_send_complete c _ => some c
    | _ => none)

/-- The callback contexts of the queued writes that carry a completion
callback, in queue order. -/
def pending_cb_contexts (l : List PENDING_SOCKET_IO) : List Nat :=
  l.filterMap (fun p =>
    if p.has_on_send_complete then some p.callback_context else none)

/-- The callback contexts a single action adds to the pending queue (with
a completion callback registered): exactly the accepted wsio_send calls.
The acceptance condition mirrors wsio_send: state OPEN, non-zero size, and
all three queueing allocations succeed. -/
def queued_contexts (w : WSIO_INSTANCE) : Action → List Nat
  | Action.act_send data hsc ctx m1 m2 la _ =>
    if w.io_state = IO_STATE.IO_STATE_OPEN ∧ data.length ≠ 0 ∧
        m1 = true ∧ m2 = true ∧ la = true ∧ hsc = true then [ctx] else []
  | _ => []

/-- The callback contexts of all writes accepted over a run, in send
order. -/
def accepted_send_contexts (w : WSIO_INSTANCE) : List Action → List Nat
  | [] => []
  | a :: rest => queued_contexts w a ++ accepted_send_contexts (step w a).1 rest

/-- The payloads handed to lws_write over an event list, in order. -/
def lws_write_payloads (l : List Event) : List (List Nat) :=
  l.filterMap (fun e =>
    match e with
    | Event.lws_write_call b => some b
    | _ => none)

/-- A concrete instance in IO_STATE_OPEN with both instance callbacks
registered, used by the concrete-trace theorems. -/
def open_fixture : WSIO_INSTANCE :=
  { has_on_io_open_complete := true,
    has_on_io_error := true,
    open_callback_context := 0,
    io_state := IO_STATE.IO_STATE_OPEN,
    pending_io_list := [],
    port := 443,
    host := "h",
    relative_path := "/",
    protocol_name := "AMQPWSB10",
    trusted_ca := none,
    use_ssl := true }

/-- open_fixture moved to the ERROR state. -/
def error_fixture : WSIO_INSTANCE :=
  { open_fixture with io_state := IO_STATE.IO_STATE_ERROR }

/-- open_fixture in the initial NOT_OPEN state (as wsio_create leaves
it). -/
def not_open_fixture : WSIO_INSTANCE :=
  { open_fixture with io_state := IO_STATE.IO_STATE_NOT_OPEN,
                      has_on_io_open_complete := false,
                      has_on_io_error := false }

/-- open_fixture in the OPENING state. -/
def opening_fixture : WSIO_INSTANCE :=
  { open_fixture with io_state := IO_STATE.IO_STATE_OPENING }

/-- A trace that queues one 3-byte write while OPEN, suffers a short
write of 1 byte on the first ready-to-write round, and then has lws_write
fail (negative result) on the second round. -/
def c1_actions : List Action :=
  [Action.act_send [1, 2, 3] true 7 true true true 0,
   Action.act_event (lws_callback_reason.LWS_CALLBACK_CLIENT_WRITEABLE true 1),
   Action.act_event (lws_callback_reason.LWS_CALLBACK_CLIENT_WRITEABLE true (-1))]

/-- A trace that queues one 3-byte write while OPEN, suffers a short
write of 1 byte on the first ready-to-write round, and then has lws_write
accept everything submitted on the second round. -/
def c2_actions : List Action :=
  [Action.act_send [1, 2, 3] true 7 true true true 0,
   Action.act_event (lws_callback_reason.LWS_CALLBACK_CLIENT_WRITEABLE true 1),
   Action.act_event (lws_callback_reason.LWS_CALLBACK_CLIENT_WRITEABLE true 3)]

/-- A trace that opens the instance (reaching IO_STATE_OPENING). -/
def c10_actions : List Action :=
  [Action.act_open true true 0 true true]

/-- A concrete valid configuration used by the wsio_create witness. -/
def c8_config : WSIO_CONFIG :=
  { host := some "h", port := 443, protocol_name := some "AMQPWSB10",
    relative_path := some "/", use_ssl := true, trusted_ca := some "PEM" }

/-- The instance obtained by a successful wsio_open on not_open_fixture
with both callbacks registered and callback context 5. -/
def opened_ctx5_fixture : WSIO_INSTANCE :=
  { not_open_fixture with has_on_io_open_complete := true,
                          has_on_io_error := true,
                          open_callback_context := 5,
                          io_state := IO_STATE.IO_STATE_OPENING }

/-- C1: on the concrete trace c1_actions a queue-head write fails
(negative lws_write) after a previous partial round had already
transmitted 1 of its 3 bytes.  The claim says that besides the single
SEND_ERROR completion the instance must transition to ERROR and raise
on_io_error; the code, however, stays in IO_STATE_OPEN and never invokes
on_io_error, because the is_partially_sent flag that gates that
transition is initialised to false in add_pending_io and never set to
true in the partial-send branch of on_ws_callback. -/
theorem c1_partial_then_failure_no_error_transition :
    (run open_fixture c1_actions).1.io_state = IO_STATE.IO_STATE_OPEN ∧
    Event.on_io_error ∉ (run open_fixture c1_actions).2 ∧
    (run open_fixture c1_actions).2.count
      (Event.on_send_complete 7 IO_SEND_RESULT.IO_SEND_ERROR) = 1 ∧
    (run open_fixture c1_actions).1.pending_io_list = [] := by
  decide

/-- C2: on the concrete trace c2_actions the engine accepts 1 of the 3
bytes of the queued write in the first round.  The claim says the next
round must submit only the remaining 2 bytes ([2, 3]) and the write must
be marked partially-sent; the code instead keeps the size field at 3 and
the is_partially_sent flag at false, and the second round resubmits 3
bytes [2, 3, 3] (the memmoved remainder plus the stale tail), so the
engine observes [1, 2, 3] then [2, 3, 3] instead of [1, 2, 3] then
[2, 3], while the caller still receives a single SEND_OK. -/
theorem c2_partial_send_resubmits_full_buffer :
    lws_write_payloads (run open_fixture c2_actions).2 = [[1, 2, 3], [2, 3, 3]] ∧
    ((run open_fixture (c2_actions.take 2)).1.pending_io_list.map
      (fun p => (p.size, p.is_partially_sent))) = [(3, false)] ∧
    (run open_fixture c2_actions).2.count
      (Event.on_send_complete 7 IO_SEND_RESULT.IO_SEND_OK) = 1 := by
  decide

/-- C4 counterexample: on the concrete error_fixture (io_state =
IO_STATE_ERROR), wsio_close returns 0 and moves the instance to
IO_STATE_NOT_OPEN, contradicting the claim that every close call in the
ERROR state fails with a non-zero return and leaves the state ERROR. -/
theorem c4_close_in_error_succeeds :
    (wsio_close (some error_fixture) false 0).1 = 0 ∧
    (wsio_close (some error_fixture) false 0).2.1 =
      some { error_fixture with io_state := IO_STATE.IO_STATE_NOT_OPEN } := by
  decide

/-- C4 (amended): in the ERROR state wsio_open and wsio_send fail with a
non-zero return and leave the instance unchanged (still ERROR), but
wsio_close succeeds: it returns 0, drains the pending queue and moves the
instance to IO_STATE_NOT_OPEN. -/
theorem c4_error_state_open_send_fail_close_recovers
    (w : WSIO_INSTANCE) (herr : w.io_state = IO_STATE.IO_STATE_ERROR)
    (hoc hie : Bool) (octx : Nat) (create_ok connect_ok : Bool)
    (buffer : Option (List Nat)) (size : Nat) (hsc : Bool) (sctx : Nat)
    (m1 m2 la : Bool) (wr : Int) (hcc : Bool) (cctx : Nat) :
    (wsio_open (some w) hoc hie octx create_ok connect_ok).1 ≠ 0 ∧
    (wsio_open (some w) hoc hie octx create_ok connect_ok).2.1 = some w ∧
    (wsio_send (some w) buffer size hsc sctx m1 m2 la wr).1 ≠ 0 ∧
    (wsio_send (some w) buffer size hsc sctx m1 m2 la wr).2 = some w ∧
    (wsio_close (some w) hcc cctx).1 = 0 ∧
    (wsio_close (some w) hcc cctx).2.1 =
      some { w with io_state := IO_STATE.IO_STATE_NOT_OPEN,
                    pending_io_list := [] } := by
  refine ⟨?_, ?_, ?_, ?_, ?_, ?_⟩ <;>
    rcases buffer with _ | buf <;>
    simp_all [wsio_open, wsio_send, wsio_close] <;>
    split <;> simp

/-- Witness for c4_error_state_open_send_fail_close_recovers at the
concrete error_fixture. -/
theorem c4_error_state_witness :
    error_fixture.io_state = IO_STATE.IO_STATE_ERROR ∧
    ((wsio_open (some error_fixture) true true 0 true true).1 ≠ 0 ∧
     (wsio_open (some error_fixture) true true 0 true true).2.1 = some error_fixture ∧
     (wsio_send (some error_fixture) (some [1]) 1 true 7 true true true 0).1 ≠ 0 ∧
     (wsio_send (some error_fixture) (some [1]) 1 true 7 true true true 0).2 =
       some error_fixture ∧
     (wsio_close (some error_fixture) false 0).1 = 0 ∧
     (wsio_close (some error_fixture) false 0).2.1 =
       some { error_fixture with io_state := IO_STATE.IO_STATE_NOT_OPEN,
                                 pending_io_list := [] }) :=
  ⟨by decide,
   c4_error_state_open_send_fail_close_recovers error_fixture (by decide)
     true true 0 true true (some [1]) 1 true 7 true true true 0 false 0⟩

/-- C5 counterexample: on the concrete open_fixture, when the queueing
succeeds but lws_callback_on_writable returns -1, wsio_send returns a
non-zero value (744), i.e. it reports failure to the caller, while the
write nevertheless remains enqueued — contradicting the claim that the
send is still reported as accepted. -/
theorem c5_notify_failure_reports_failure :
    (wsio_send (some open_fixture) (some [1]) 1 true 7 true true true (-1)).1 ≠ 0 ∧
    (wsio_send (some open_fixture) (some [1]) 1 true 7 true true true (-1)).2 =
      some { open_fixture with pending_io_list :=
        [{ bytes := [1], size := 1, has_on_send_complete := true,
           callback_context := 7, is_partially_sent := false }] } := by
  decide

/-- C5 (amended): if, after a write has been successfully queued by
wsio_send, the writable-notification request to the engine fails
(returns a negative value), wsio_send returns a non-zero failure code
(744) to the caller while the write remains enqueued at the tail with no
notification registered. -/
theorem c5_notify_failure_write_stays_enqueued
    (w : WSIO_INSTANCE) (hopen : w.io_state = IO_STATE.IO_STATE_OPEN)
    (data : List Nat) (hdata : data ≠ []) (hsc : Bool) (ctx : Nat) (wr : Int)
    (hwr : wr < 0) :
    (wsio_send (some w) (some data) data.length hsc ctx true true true wr).1 = 744 ∧
    (wsio_send (some w) (some data) data.length hsc ctx true true true wr).2 =
      some { w with pending_io_list := w.pending_io_list ++
        [{ bytes := data, size := data.length, has_on_send_complete := hsc,
           callback_context := ctx, is_partially_sent := false }] } := by
  have hlen : data.length ≠ 0 := by simpa using hdata
  simp [wsio_send, add_pending_io, hopen, hlen, hwr, List.take_length]

/-- Witness for c5_notify_failure_write_stays_enqueued at a concrete
input. -/
theorem c5_notify_failure_witness :
    open_fixture.io_state = IO_STATE.IO_STATE_OPEN ∧ ([1] : List Nat) ≠ [] ∧
    ((-1 : Int) < 0) ∧
    ((wsio_send (some open_fixture) (some [1]) 1 true 7 true true true (-1)).1 = 744 ∧
     (wsio_send (some open_fixture) (some [1]) 1 true 7 true true true (-1)).2 =
       some { open_fixture with pending_io_list :=
         [{ bytes := [1], size := 1, has_on_send_complete := true,
            callback_context := 7, is_partially_sent := false }] }) :=
  ⟨by decide, by decide, by decide,
   c5_notify_failure_write_stays_enqueued open_fixture (by decide) [1] (by decide)
     true 7 (-1) (by decide)⟩

/-- C7: wsio_send fails with a non-zero return and leaves the handle (its
state and pending-write queue) unchanged whenever the handle is NULL, the
buffer is NULL, the size is 0, or the instance is not in IO_STATE_OPEN;
in all of these branches the code performs no allocation. -/
theorem c7_send_invalid_args_no_side_effects
    (ws_io : Option WSIO_INSTANCE) (buffer : Option (List Nat)) (size : Nat)
    (hsc : Bool) (ctx : Nat) (m1 m2 la : Bool) (wr : Int)
    (h : ws_io = none ∨ buffer = none ∨ size = 0 ∨
      ∃ w, ws_io = some w ∧ w.io_state ≠ IO_STATE.IO_STATE_OPEN) :
    (wsio_send ws_io buffer size hsc ctx m1 m2 la wr).1 ≠ 0 ∧
    (wsio_send ws_io buffer size hsc ctx m1 m2 la wr).2 = ws_io := by
  rcases ws_io with _ | w
  · simp [wsio_send]
  · rcases buffer with _ | buf
    · simp [wsio_send]
    · rcases h with h | h | h | ⟨w2, hw2, hst⟩
      · exact absurd h (by simp)
      · exact absurd h (by simp)
      · simp [wsio_send, h]
      · rcases Nat.eq_zero_or_pos size with hsz | hsz
        · simp [wsio_send, hsz]
        · cases hw2
          simp [wsio_send, Nat.pos_iff_ne_zero.mp hsz, hst]

/-- Witness for c7_send_invalid_args_no_side_effects at a concrete
input (state OPENING, so not OPEN). -/
theorem c7_send_invalid_args_witness :
    ((some opening_fixture : Option WSIO_INSTANCE) = none ∨
      (some [1] : Option (List Nat)) = none ∨ (1 : Nat) = 0 ∨
      ∃ w, (some opening_fixture : Option WSIO_INSTANCE) = some w ∧
        w.io_state ≠ IO_STATE.IO_STATE_OPEN) ∧
    ((wsio_send (some opening_fixture) (some [1]) 1 true 7 true true true 0).1 ≠ 0 ∧
     (wsio_send (some opening_fixture) (some [1]) 1 true 7 true true true 0).2 =
       some opening_fixture) :=
  ⟨Or.inr (Or.inr (Or.inr ⟨opening_fixture, rfl, by decide⟩)),
   c7_send_invalid_args_no_side_effects (some opening_fixture) (some [1]) 1
     true 7 true true true 0
     (Or.inr (Or.inr (Or.inr ⟨opening_fixture, rfl, by decide⟩)))⟩

/-- C6: wsio_close on an instance in IO_STATE_OPENING (with the open
callback registered) returns 0, delivers on_io_open_complete with
IO_OPEN_CANCELLED before lws_context_destroy (and before the optional
close-complete callback), leaves the instance in IO_STATE_NOT_OPEN, and a
subsequent wsio_open on that same instance (with succeeding engine
primitives) returns 0 and moves it to IO_STATE_OPENING. -/
theorem c6_close_during_opening_then_reopen
    (w : WSIO_INSTANCE) (hst : w.io_state = IO_STATE.IO_STATE_OPENING)
    (hreg : w.has_on_io_open_complete = true)
    (hcc : Bool) (cctx : Nat) (hoc hie : Bool) (octx : Nat) :
    (wsio_close (some w) hcc cctx).1 = 0 ∧
    (wsio_close (some w) hcc cctx).2.2 =
      Event.on_io_open_complete IO_OPEN_RESULT.IO_OPEN_CANCELLED ::
      Event.lws_context_destroy_call ::
      (if hcc then [Event.on_io_close_complete cctx] else []) ∧
    ∃ w2, (wsio_close (some w) hcc cctx).2.1 = some w2 ∧
      w2.io_state = IO_STATE.IO_STATE_NOT_OPEN ∧
      (wsio_open (some w2) hoc hie octx true true).1 = 0 ∧
      ∃ w3, (wsio_open (some w2) hoc hie octx true true).2.1 = some w3 ∧
        w3.io_state = IO_STATE.IO_STATE_OPENING := by
  refine ⟨by simp [wsio_close, hst], ?_, ?_⟩
  · simp [wsio_close, hst, indicate_open_complete, hreg]
  · refine ⟨{ w with io_state := IO_STATE.IO_STATE_NOT_OPEN }, ?_, rfl, ?_, ?_⟩
    · simp [wsio_close, hst]
    · simp [wsio_open]
    · exact ⟨_, rfl, rfl⟩

/-- Witness for c6_close_during_opening_then_reopen at the concrete
opening_fixture. -/
theorem c6_close_during_opening_witness :
    opening_fixture.io_state = IO_STATE.IO_STATE_OPENING ∧
    opening_fixture.has_on_io_open_complete = true ∧
    ((wsio_close (some opening_fixture) true 3).1 = 0 ∧
     (wsio_close (some opening_fixture) true 3).2.2 =
       Event.on_io_open_complete IO_OPEN_RESULT.IO_OPEN_CANCELLED ::
       Event.lws_context_destroy_call ::
       (if true then [Event.on_io_close_complete 3] else []) ∧
     ∃ w2, (wsio_close (some opening_fixture) true 3).2.1 = some w2 ∧
       w2.io_state = IO_STATE.IO_STATE_NOT_OPEN ∧
       (wsio_open (some w2) true true 9 true true).1 = 0 ∧
       ∃ w3, (wsio_open (some w2) true true 9 true true).2.1 = some w3 ∧
         w3.io_state = IO_STATE.IO_STATE_OPENING) :=
  ⟨by decide, by decide,
   c6_close_during_opening_then_reopen opening_fixture (by decide) (by decide)
     true 3 true true 9⟩

/-- C9: after a successful wsio_open with callback context ctx, every
LWS_CALLBACK_CLIENT_RECEIVE dispatch invokes on_bytes_received exactly
once, with the payload passed verbatim (unmodified, unbuffered) and the
context captured at open, and changes no instance state. -/
theorem c9_receive_forwards_payload_verbatim
    (w w2 : WSIO_INSTANCE) (hoc hie : Bool) (ctx : Nat) (evs : List Event)
    (payload : List Nat)
    (hopen : wsio_open (some w) hoc hie ctx true true = (0, some w2, evs)) :
    on_ws_callback w2 (lws_callback_reason.LWS_CALLBACK_CLIENT_RECEIVE payload) =
      (w2, [Event.on_bytes_received ctx payload]) := by
  by_cases hw : w.io_state = IO_STATE.IO_STATE_NOT_OPEN
  · simp [wsio_open, hw, Prod.ext_iff] at hopen
    obtain ⟨h2, -⟩ := hopen
    subst h2
    simp [on_ws_callback]
  · simp [wsio_open, hw] at hopen

/-- Witness for c9_receive_forwards_payload_verbatim at a concrete
input. -/
theorem c9_receive_witness :
    wsio_open (some not_open_fixture) true true 5 true true =
      (0, some opened_ctx5_fixture, []) ∧
    on_ws_callback opened_ctx5_fixture
        (lws_callback_reason.LWS_CALLBACK_CLIENT_RECEIVE [9, 8]) =
      (opened_ctx5_fixture, [Event.on_bytes_received 5 [9, 8]]) :=
  ⟨by decide,
   c9_receive_forwards_payload_verbatim not_open_fixture opened_ctx5_fixture
     true true 5 [] [9, 8] (by decide)⟩

theorem completed_send_contexts_nil : completed_send_contexts [] = [] := rfl

theorem completed_send_contexts_cons (e : Event) (l : List Event) :
    completed_send_contexts (e :: l) =
      (match e with
        | Event.on_send_complete c _ => [c]
        | _ => []) ++ completed_send_contexts l := by
  cases e <;> simp [completed_send_contexts]

theorem completed_send_contexts_append (l1 l2 : List Event) :
    completed_send_contexts (l1 ++ l2) =
      completed_send_contexts l1 ++ completed_send_contexts l2 := by
  simp [completed_send_contexts]

theorem pending_cb_contexts_nil : pending_cb_contexts [] = [] := rfl

theorem pending_cb_contexts_cons (p : PENDING_SOCKET_IO) (l : List PENDING_SOCKET_IO) :
    pending_cb_contexts (p :: l) =
      (if p.has_on_send_complete then [p.callback_context] else []) ++
        pending_cb_contexts l := by
  by_cases h : p.has_on_send_complete = true <;> simp [pending_cb_contexts, h]

theorem pending_cb_contexts_append (l1 l2 : List PENDING_SOCKET_IO) :
    pending_cb_contexts (l1 ++ l2) =
      pending_cb_contexts l1 ++ pending_cb_contexts l2 := by
  simp [pending_cb_contexts]

theorem completed_send_contexts_ite_notify (c : Prop) [Decidable c] :
    completed_send_contexts
      (if c then [] else [Event.lws_callback_on_writable_call]) = [] := by
  split <;> simp [completed_send_contexts_cons, completed_send_contexts_nil]

theorem completed_indicate_error (w : WSIO_INSTANCE) :
    completed_send_contexts (indicate_error w) = [] := by
  by_cases h : w.has_on_io_error = true <;>
    simp [indicate_error, completed_send_contexts_cons,
      completed_send_contexts_nil, h]

theorem completed_indicate_open_complete (w : WSIO_INSTANCE) (r : IO_OPEN_RESULT) :
    completed_send_contexts (indicate_open_complete w r) = [] := by
  by_cases h : w.has_on_io_open_complete = true <;>
    simp [indicate_open_complete, completed_send_contexts_cons,
      completed_send_contexts_nil, h]

theorem completed_cancel_all_pending (l : List PENDING_SOCKET_IO) :
    completed_send_contexts (cancel_all_pending l) = pending_cb_contexts l := by
  induction l with
  | nil => simp [cancel_all_pending, completed_send_contexts_nil,
      pending_cb_contexts_nil]
  | cons p rest ih =>
    by_cases hp : p.has_on_send_complete = true <;>
      simp [cancel_all_pending, completed_send_contexts_append,
        completed_send_contexts_cons, completed_send_contexts_nil,
        pending_cb_contexts_cons, hp, ih]

theorem step_send_contexts (w : WSIO_INSTANCE) (a : Action) :
    completed_send_contexts (step w a).2 ++
      pending_cb_contexts (step w a).1.pending_io_list =
    pending_cb_contexts w.pending_io_list ++ queued_contexts w a := by
  cases a with
  | act_open hoc hie ctx create_ok connect_ok =>
    by_cases hw : w.io_state = IO_STATE.IO_STATE_NOT_OPEN <;>
      cases create_ok <;> cases connect_ok <;>
      simp [step, wsio_open, queued_contexts, completed_send_contexts_cons,
        completed_send_contexts_nil, hw]
  | act_close hcc ctx =>
    by_cases hno : w.io_state = IO_STATE.IO_STATE_NOT_OPEN
    · simp [step, wsio_close, queued_contexts, completed_send_contexts_nil, hno]
    · by_cases hop : w.io_state = IO_STATE.IO_STATE_OPENING <;>
        cases hcc <;>
        simp [step, wsio_close, queued_contexts, hno, hop,
          completed_send_contexts_append, completed_indicate_open_complete,
          completed_cancel_all_pending, completed_send_contexts_cons,
          completed_send_contexts_nil, pending_cb_contexts_nil]
  | act_send data hsc ctx m1 m2 la wr =>
    by_cases hopen : w.io_state = IO_STATE.IO_STATE_OPEN <;>
      by_cases hd : data.length = 0 <;>
      cases m1 <;> cases m2 <;> cases la <;> cases hsc <;>
      by_cases hwr : wr < 0 <;>
      simp [step, wsio_send, add_pending_io, queued_contexts,
        completed_send_contexts_nil, pending_cb_contexts_append,
        pending_cb_contexts_cons, pending_cb_contexts_nil, hopen, hd, hwr]
  | act_event reason =>
    cases reason with
    | LWS_CALLBACK_CLIENT_ESTABLISHED =>
      cases hst : w.io_state <;>
        simp [step, on_ws_callback, queued_contexts, completed_indicate_error,
          completed_indicate_open_complete, completed_send_contexts_nil, hst]
    | LWS_CALLBACK_CLIENT_CONNECTION_ERROR =>
      cases hst : w.io_state <;>
        simp [step, on_ws_callback, queued_contexts, completed_indicate_error,
          completed_indicate_open_complete, completed_send_contexts_append,
          completed_send_contexts_cons, completed_send_contexts_nil, hst]
    | LWS_CALLBACK_CLIENT_WRITEABLE mok n =>
      cases hq : w.pending_io_list with
      | nil =>
        simp [step, on_ws_callback, handle_writeable, queued_contexts,
          completed_send_contexts_nil, hq]
      | cons p rest =>
        by_cases hm : mok = false <;>
          by_cases hn : n < 0 <;>
          by_cases hsz : n.toNat < p.size <;>
          by_cases hp : p.has_on_send_complete = true <;>
          by_cases hps : p.is_partially_sent = true <;>
          simp [step, on_ws_callback, handle_writeable, queued_contexts,
            completed_send_contexts_append, completed_send_contexts_ite_notify,
            completed_indicate_error, completed_send_contexts_cons,
            completed_send_contexts_nil, pending_cb_contexts_cons,
            hq, hm, hn, hsz, hp, hps]
    | LWS_CALLBACK_CLIENT_RECEIVE payload =>
      simp [step, on_ws_callback, queued_contexts, completed_send_contexts_cons,
        completed_send_contexts_nil]

/-- C3: over every action sequence (public calls with arbitrary
allocator and engine outcomes, interleaved with engine events), the send
completions observed so far, in order, followed by the contexts of the
writes still pending, equal the initially pending contexts followed by
the contexts of the accepted send calls in call order.  This is exactly
the completion contract: each accepted write (with a registered
completion callback) is completed at most once, with the context supplied
at its send call, completions fire in send order regardless of how many
partial-transmission rounds occurred, and a write never completed is
still in the queue; each completion carries one IO_SEND_RESULT, whose
type has exactly the values IO_SEND_OK, IO_SEND_ERROR and
IO_SEND_CANCELLED.  Whenever the queue is empty (in particular after a
draining close), the completions delivered are exactly the accepted
sends, each exactly once, in order. -/
theorem c3_completions_exactly_once_in_send_order
    (w : WSIO_INSTANCE) (acts : List Action) :
    completed_send_contexts (run w acts).2 ++
      pending_cb_contexts (run w acts).1.pending_io_list =
    pending_cb_contexts w.pending_io_list ++ accepted_send_contexts w acts := by
  induction acts generalizing w with
  | nil => simp [run, accepted_send_contexts, completed_send_contexts]
  | cons a rest ih =>
    simp only [run, accepted_send_contexts, completed_send_contexts_append,
      List.append_assoc]
    rw [ih (step w a).1, ← List.append_assoc, step_send_contexts w a,
      List.append_assoc]

theorem step_queue_empty_invariant (w : WSIO_INSTANCE) (a : Action)
    (h : (w.io_state = IO_STATE.IO_STATE_NOT_OPEN ∨
          w.io_state = IO_STATE.IO_STATE_OPENING) → w.pending_io_list = []) :
    ((step w a).1.io_state = IO_STATE.IO_STATE_NOT_OPEN ∨
     (step w a).1.io_state = IO_STATE.IO_STATE_OPENING) →
      (step w a).1.pending_io_list = [] := by
  cases a with
  | act_open hoc hie ctx create_ok connect_ok =>
    simp only [step, wsio_open]
    split_ifs <;> simp_all
  | act_close hcc ctx =>
    simp only [step, wsio_close]
    split_ifs <;> simp_all
  | act_send data hsc ctx m1 m2 la wr =>
    simp only [step, wsio_send, add_pending_io]
    split_ifs <;> simp_all
  | act_event reason =>
    cases reason with
    | LWS_CALLBACK_CLIENT_ESTABLISHED =>
      cases hst : w.io_state <;> simp_all [step, on_ws_callback]
    | LWS_CALLBACK_CLIENT_CONNECTION_ERROR =>
      cases hst : w.io_state <;> simp_all [step, on_ws_callback]
    | LWS_CALLBACK_CLIENT_WRITEABLE mok n =>
      cases hq : w.pending_io_list with
      | nil => simp_all [step, on_ws_callback, handle_writeable]
      | cons p rest =>
        simp only [step, on_ws_callback, handle_writeable, hq]
        split_ifs <;> simp_all
    | LWS_CALLBACK_CLIENT_RECEIVE payload =>
      simp_all [step, on_ws_callback]

theorem run_queue_empty_invariant (w : WSIO_INSTANCE) (acts : List Action)
    (h : (w.io_state = IO_STATE.IO_STATE_NOT_OPEN ∨
          w.io_state = IO_STATE.IO_STATE_OPENING) → w.pending_io_list = []) :
    ((run w acts).1.io_state = IO_STATE.IO_STATE_NOT_OPEN ∨
     (run w acts).1.io_state = IO_STATE.IO_STATE_OPENING) →
      (run w acts).1.pending_io_list = [] := by
  induction acts generalizing w with
  | nil => simpa [run] using h
  | cons a rest ih =>
    simpa [run] using ih (step w a).1 (step_queue_empty_invariant w a h)

/-- C10: starting from a freshly created instance (state NOT_OPEN, empty
queue), in every state reachable through public operations and engine
events, the state IO_STATE_OPENING implies the pending-write queue is
empty; hence the close-during-OPENING path of wsio_close, which skips the
queue-drain loop, never abandons a pending write. -/
theorem c10_opening_state_has_empty_queue
    (w : WSIO_INSTANCE) (acts : List Action)
    (hstate : w.io_state = IO_STATE.IO_STATE_NOT_OPEN)
    (hqueue : w.pending_io_list = [])
    (hopening : (run w acts).1.io_state = IO_STATE.IO_STATE_OPENING) :
    (run w acts).1.pending_io_list = [] :=
  run_queue_empty_invariant w acts (fun _ => hqueue) (Or.inr hopening)

/-- Witness for c10_opening_state_has_empty_queue: the concrete trace
c10_actions reaches IO_STATE_OPENING from not_open_fixture. -/
theorem c10_opening_state_witness :
    not_open_fixture.io_state = IO_STATE.IO_STATE_NOT_OPEN ∧
    not_open_fixture.pending_io_list = [] ∧
    (run not_open_fixture c10_actions).1.io_state = IO_STATE.IO_STATE_OPENING ∧
    (run not_open_fixture c10_actions).1.pending_io_list = [] :=
  ⟨by decide, by decide, by decide,
   c10_opening_state_has_empty_queue not_open_fixture c10_actions
     (by decide) (by decide) (by decide)⟩

/-- C8: wsio_create returns none (NULL) whenever the configuration is
NULL or its host, protocol_name or relative_path field is NULL, and
whenever any allocation attempted during construction fails; and in every
failure case the allocation log is balanced — every allocation made so
far has a matching free — so no half-constructed instance survives. -/
theorem c8_create_validates_and_rolls_back
    (cfg : Option WSIO_CONFIG)
    (a_instance a_list a_host a_relative_path a_protocol_name a_protocols a_trusted_ca : Bool)
    (h : cfg = none ∨
      (∃ c, cfg = some c ∧
        (c.host = none ∨ c.protocol_name = none ∨ c.relative_path = none)) ∨
      (∃ t, AllocEvent.alloc_fail t ∈
        (wsio_create cfg a_instance a_list a_host a_relative_path a_protocol_name
          a_protocols a_trusted_ca).2)) :
    (wsio_create cfg a_instance a_list a_host a_relative_path a_protocol_name
      a_protocols a_trusted_ca).1 = none ∧
    (∀ t, AllocEvent.alloc t ∈
        (wsio_create cfg a_instance a_list a_host a_relative_path a_protocol_name
          a_protocols a_trusted_ca).2 ↔
      AllocEvent.free t ∈
        (wsio_create cfg a_instance a_list a_host a_relative_path a_protocol_name
          a_protocols a_trusted_ca).2) := by
  rcases cfg with _ | ⟨host, port, protocol_name, relative_path, use_ssl, trusted_ca⟩
  · simp [wsio_create]
  rcases host with _ | host
  · simp [wsio_create]
  rcases protocol_name with _ | protocol_name
  · simp [wsio_create]
  rcases relative_path with _ | relative_path
  · simp [wsio_create]
  have hfail : ∃ t, AllocEvent.alloc_fail t ∈
      (wsio_create (some ⟨some host, port, some protocol_name, some relative_path,
        use_ssl, trusted_ca⟩) a_instance a_list a_host a_relative_path
        a_protocol_name a_protocols a_trusted_ca).2 := by
    rcases h with h | ⟨c, hc, h⟩ | h
    · exact absurd h (by simp)
    · obtain rfl := (Option.some.injEq _ _).mp hc
      rcases h with h | h | h <;> simp at h
    · exact h
  clear h
  rcases trusted_ca with _ | ca <;>
    cases a_instance <;> cases a_list <;> cases a_host <;>
    cases a_relative_path <;> cases a_protocol_name <;> cases a_protocols <;>
    cases a_trusted_ca <;>
    simp_all [wsio_create] <;>
    decide

/-- Witness for c8_create_validates_and_rolls_back: a concrete
configuration whose protocols-table allocation fails. -/
theorem c8_create_witness :
    ((some c8_config : Option WSIO_CONFIG) = none ∨
      (∃ c, (some c8_config : Option WSIO_CONFIG) = some c ∧
        (c.host = none ∨ c.protocol_name = none ∨ c.relative_path = none)) ∨
      (∃ t, AllocEvent.alloc_fail t ∈
        (wsio_create (some c8_config) true true true true true false true).2)) ∧
    ((wsio_create (some c8_config) true true true true true false true).1 = none ∧
     (∀ t, AllocEvent.alloc t ∈
         (wsio_create (some c8_config) true true true true true false true).2 ↔
       AllocEvent.free t ∈
         (wsio_create (some c8_config) true true true true true false true).2)) :=
  ⟨Or.inr (Or.inr (by decide)),
   c8_create_validates_and_rolls_back (some c8_config) true true true true true
     false true (Or.inr (Or.inr (by decide)))⟩

end WSIO
